import Mathlib

/-!
Shallow embedding of `src/programs/insurance-contract/src/lib.rs`
(Anchor/Solana parametric insurance program) and verification of the
frozen claims about its policy lifecycle state machine.

Modelling conventions:
* `Pubkey` values are opaque identities, modelled as `Nat`.
* `i64` timestamps/prices/thresholds are modelled as `Int`; the only
  arithmetic the program performs on them is comparison (the one
  multiplication/division sits in the structurally unreachable
  `VolatilityAbove` branch), so overflow does not arise on any path a
  theorem below depends on.
* `u64` token amounts are modelled as `Nat`.
* Each instruction is a function from the chain state (policy record plus
  the two SPL token balances it touches) to a transaction outcome.
  The host (Solana runtime / Anchor) reverts every state write when an
  instruction returns an error, so an `err` or `panic` outcome leaves the
  chain state unchanged; `resultState` makes that revert semantics explicit.
* Anchor evaluates the `#[derive(Accounts)]` constraints (`has_one`,
  `constraint = ...`) before the handler body runs; they are embedded as
  the leading checks of each function, followed by the handler's own
  `require!` checks in source order.
-/

namespace InsuranceContract

/-- `PolicyStatus` from the source (lib.rs lines 377-384). -/
inductive PolicyStatus where
  | active
  | purchased
  | triggeredPayout
  | paidOut
  | cancelled
  | expired
deriving DecidableEq, Repr

/-- `TriggerConditionType` from the source (lib.rs lines 387-391). -/
inductive TriggerConditionType where
  | priceAbove
  | priceBelow
  | volatilityAbove
deriving DecidableEq, Repr

/-- `InsuranceError` from the source (lib.rs lines 393-409). -/
inductive InsuranceError where
  | policyNotActive
  | policyExpired
  | policyNotPurchased
  | payoutNotTriggered
  | policyCannotBeCancelled
  | invalidOracleData
  | insufficientFunds
deriving DecidableEq, Repr

/-- The full space of errors an instruction can return: the program's own
`InsuranceError`s, Anchor account-constraint failures (`has_one`,
`constraint = ...`), the SPL token program's insufficient-funds failure,
and the error propagated by `?` from `load_price_feed_from_account_info`. -/
inductive ProgramError where
  | insurance : InsuranceError → ProgramError
  | constraintHasOne
  | constraintRaw
  | tokenInsufficientFunds
  | pythLoadFail
deriving DecidableEq, Repr

/-- A pyth `Price` reading: `price: i64`, `conf: u64` (lib.rs line 95 uses
`current_price.price` and `current_price.conf`). -/
structure Price where
  price : Int
  conf : Nat
deriving DecidableEq, Repr

/-- Modelled from the spec: the Oracle Price Port (§4.3). The source calls
`load_price_feed_from_account_info` (which can fail for a malformed feed
account, propagated by `?` on lib.rs line 94) and then
`get_current_price()` (which returns `None` when the feed has no current,
non-stale price; the source `.unwrap()`s it on line 95). Those two library
functions live outside this repository, so their three possible outcomes
are modelled as this inductive. -/
inductive OracleData where
  | loadFail
  | noCurrentPrice
  | current : Price → OracleData
deriving DecidableEq, Repr

/-- The `InsurancePolicy` account (lib.rs lines 329-346). -/
structure InsurancePolicy where
  authority : Nat
  policy_holder : Nat
  oracle_address : Nat
  trigger_threshold : Int
  coverage_amount : Nat
  premium_amount : Nat
  expiry_timestamp : Int
  created_timestamp : Int
  purchased_timestamp : Option Int
  triggered_timestamp : Option Int
  payout_timestamp : Option Int
  cancelled_timestamp : Option Int
  trigger_price : Option Int
  status : PolicyStatus
  bump : Nat
deriving DecidableEq, Repr

/-- The state an instruction can touch: the policy record plus the two SPL
token balances (`policy_holder_token_account`, the escrow
`insurance_pool_token_account`). -/
structure ChainState where
  policy : InsurancePolicy
  holder_balance : Nat
  pool_balance : Nat
deriving DecidableEq, Repr

/-- Outcome of one instruction invocation. `err` means the transaction
failed with the given error and the host reverted all writes; `panic`
means the Rust code panicked (e.g. `.unwrap()` on `None`), which also
aborts the transaction but is not an error return of the program. -/
inductive TxResult where
  | ok : ChainState → TxResult
  | err : ProgramError → TxResult
  | panic
deriving DecidableEq, Repr

/-- The chain state after an invocation: the new state on success, and the
unchanged input state on `err`/`panic` (the host reverts all writes of a
failed transaction). -/
def resultState (s : ChainState) : TxResult → ChainState
  | TxResult.ok s' => s'
  | TxResult.err _ => s
  | TxResult.panic => s

/-- Modelled from the spec: the Fund Transfer Port (§4.2) — the SPL token
program's `transfer`, which moves exactly `amount` and fails with an
insufficient-funds error when `fromBal < amount`. The token program lives
outside this repository. -/
def token_transfer (fromBal toBal amount : Nat) : Option (Nat × Nat) :=
  if fromBal < amount then none else some (fromBal - amount, toBal + amount)

/-- `InsurancePolicy::trigger_condition_type` (lib.rs lines 366-373):
the condition kind is derived from the sign of `trigger_threshold`. -/
def trigger_condition_type (p : InsurancePolicy) : TriggerConditionType :=
  if p.trigger_threshold > 0 then TriggerConditionType.priceAbove
  else TriggerConditionType.priceBelow

/-- `initialize` (lib.rs lines 17-42; named `initialize_policy` here
because `initialize` is reserved in Lean): creates a fresh record with
`status = Active`; the optional timestamps and `trigger_price` are the
zero-initialized `None` of the freshly allocated account. No funds move. -/
def initialize_policy (authority policy_holder bump oracle_address : Nat)
    (trigger_threshold : Int) (coverage_amount premium_amount : Nat)
    (expiry_timestamp now : Int) : InsurancePolicy :=
  { authority := authority
    policy_holder := policy_holder
    oracle_address := oracle_address
    trigger_threshold := trigger_threshold
    coverage_amount := coverage_amount
    premium_amount := premium_amount
    expiry_timestamp := expiry_timestamp
    created_timestamp := now
    purchased_timestamp := none
    triggered_timestamp := none
    payout_timestamp := none
    cancelled_timestamp := none
    trigger_price := none
    status := PolicyStatus.active
    bump := bump }

/-- `purchase_policy` (lib.rs lines 45-75) together with its
`PurchasePolicy` account constraints (lines 239-257): `has_one =
policy_holder` with `policy_holder` the signer, `constraint = status ==
Active`; then the handler requires `status == Active` (PolicyNotActive),
`now < expiry_timestamp` (PolicyExpired), transfers `premium_amount`
holder → pool, sets `status = Purchased` and `purchased_timestamp`. -/
def purchase_policy (signer : Nat) (s : ChainState) (now : Int) : TxResult :=
  if signer ≠ s.policy.policy_holder then TxResult.err ProgramError.constraintHasOne
  else if s.policy.status ≠ PolicyStatus.active then TxResult.err ProgramError.constraintRaw
  else if s.policy.status ≠ PolicyStatus.active then
    TxResult.err (ProgramError.insurance InsuranceError.policyNotActive)
  else if s.policy.expiry_timestamp ≤ now then
    TxResult.err (ProgramError.insurance InsuranceError.policyExpired)
  else
    match token_transfer s.holder_balance s.pool_balance s.policy.premium_amount with
    | none => TxResult.err ProgramError.tokenInsufficientFunds
    | some (holderB, poolB) =>
        TxResult.ok
          { s with
            holder_balance := holderB
            pool_balance := poolB
            policy :=
              { s.policy with
                status := PolicyStatus.purchased
                purchased_timestamp := some now } }

/-- The record mutation `check_trigger_conditions` performs when the
trigger fires (lib.rs lines 111-116): `status = TriggeredPayout`,
`triggered_timestamp = now`, `trigger_price = price`. -/
def fireState (s : ChainState) (now price : Int) : ChainState :=
  { s with
    policy :=
      { s.policy with
        status := PolicyStatus.triggeredPayout
        triggered_timestamp := some now
        trigger_price := some price } }

/-- `check_trigger_conditions` (lib.rs lines 78-123) together with its
`CheckTriggerConditions` account constraints (lines 260-273): `has_one =
authority` with `authority` the signer, `constraint = status ==
Purchased`; then the handler requires `status == Purchased`
(PolicyNotPurchased) and `now < expiry_timestamp` (PolicyExpired), loads
the price feed (`?` propagates a load failure; `.unwrap()` panics when
`get_current_price()` is `None`), evaluates the trigger predicate for the
sign-derived condition kind, and on a fired trigger writes the
`fireState` mutation; otherwise it returns Ok with no state change.
In the `VolatilityAbove` arm the source computes
`(conf as i64 * 100) / price` with Rust `i64` division (truncation toward
zero, panicking on a zero divisor); the arm is structurally unreachable
from `trigger_condition_type`. -/
def check_trigger_conditions (signer : Nat) (s : ChainState) (now : Int)
    (oracle : OracleData) : TxResult :=
  if signer ≠ s.policy.authority then TxResult.err ProgramError.constraintHasOne
  else if s.policy.status ≠ PolicyStatus.purchased then TxResult.err ProgramError.constraintRaw
  else if s.policy.status ≠ PolicyStatus.purchased then
    TxResult.err (ProgramError.insurance InsuranceError.policyNotPurchased)
  else if s.policy.expiry_timestamp ≤ now then
    TxResult.err (ProgramError.insurance InsuranceError.policyExpired)
  else
    match oracle with
    | OracleData.loadFail => TxResult.err ProgramError.pythLoadFail
    | OracleData.noCurrentPrice => TxResult.panic
    | OracleData.current p =>
        match trigger_condition_type s.policy with
        | TriggerConditionType.priceAbove =>
            if p.price > s.policy.trigger_threshold then TxResult.ok (fireState s now p.price)
            else TxResult.ok s
        | TriggerConditionType.priceBelow =>
            if p.price < s.policy.trigger_threshold then TxResult.ok (fireState s now p.price)
            else TxResult.ok s
        | TriggerConditionType.volatilityAbove =>
            if p.price = 0 then TxResult.panic
            else if Int.tdiv ((p.conf : Int) * 100) p.price > s.policy.trigger_threshold then
              TxResult.ok (fireState s now p.price)
            else TxResult.ok s

/-- `execute_payout` (lib.rs lines 126-160) together with its
`ExecutePayout` account constraints (lines 276-294): `has_one = authority`
with `authority` the signer, `constraint = status == TriggeredPayout`;
then the handler requires `status == TriggeredPayout` (PayoutNotTriggered)
— it performs NO expiry check — transfers `coverage_amount` pool → holder
(PDA-signed), sets `status = PaidOut` and `payout_timestamp`. -/
def execute_payout (signer : Nat) (s : ChainState) (now : Int) : TxResult :=
  if signer ≠ s.policy.authority then TxResult.err ProgramError.constraintHasOne
  else if s.policy.status ≠ PolicyStatus.triggeredPayout then TxResult.err ProgramError.constraintRaw
  else if s.policy.status ≠ PolicyStatus.triggeredPayout then
    TxResult.err (ProgramError.insurance InsuranceError.payoutNotTriggered)
  else
    match token_transfer s.pool_balance s.holder_balance s.policy.coverage_amount with
    | none => TxResult.err ProgramError.tokenInsufficientFunds
    | some (poolB, holderB) =>
        TxResult.ok
          { s with
            pool_balance := poolB
            holder_balance := holderB
            policy :=
              { s.policy with
                status := PolicyStatus.paidOut
                payout_timestamp := some now } }

/-- `cancel_policy` (lib.rs lines 163-204) together with its
`CancelPolicy` account constraints (lines 297-315): `has_one =
policy_holder` with `policy_holder` the signer, `constraint = status ==
Purchased`; then the handler requires `status == Purchased`
(PolicyCannotBeCancelled) and `now < expiry_timestamp` (PolicyExpired),
transfers `refund_amount = premium_amount` pool → holder (PDA-signed),
sets `status = Cancelled` and `cancelled_timestamp`. -/
def cancel_policy (signer : Nat) (s : ChainState) (now : Int) : TxResult :=
  if signer ≠ s.policy.policy_holder then TxResult.err ProgramError.constraintHasOne
  else if s.policy.status ≠ PolicyStatus.purchased then TxResult.err ProgramError.constraintRaw
  else if s.policy.status ≠ PolicyStatus.purchased then
    TxResult.err (ProgramError.insurance InsuranceError.policyCannotBeCancelled)
  else if s.policy.expiry_timestamp ≤ now then
    TxResult.err (ProgramError.insurance InsuranceError.policyExpired)
  else
    match token_transfer s.pool_balance s.holder_balance s.policy.premium_amount with
    | none => TxResult.err ProgramError.tokenInsufficientFunds
    | some (poolB, holderB) =>
        TxResult.ok
          { s with
            pool_balance := poolB
            holder_balance := holderB
            policy :=
              { s.policy with
                status := PolicyStatus.cancelled
                cancelled_timestamp := some now } }

/-- `update_oracle` (lib.rs lines 207-214) together with its
`UpdateOracle` account constraints (lines 317-327): only `has_one =
authority` with `authority` the signer — no status check, no expiry
check; the handler replaces `oracle_address` and nothing else. -/
def update_oracle (signer new_oracle_address : Nat) (s : ChainState) : TxResult :=
  if signer ≠ s.policy.authority then TxResult.err ProgramError.constraintHasOne
  else
    TxResult.ok
      { s with policy := { s.policy with oracle_address := new_oracle_address } }

/-- One invocation of any of the five state-mutating instructions. -/
inductive Action where
  | purchase (signer : Nat) (now : Int)
  | checkTrigger (signer : Nat) (now : Int) (oracle : OracleData)
  | payout (signer : Nat) (now : Int)
  | cancel (signer : Nat) (now : Int)
  | updateOracle (signer : Nat) (addr : Nat)
deriving DecidableEq, Repr

/-- Dispatch an `Action` to the instruction it names. -/
def applyAction : Action → ChainState → TxResult
  | Action.purchase g now, s => purchase_policy g s now
  | Action.checkTrigger g now od, s => check_trigger_conditions g s now od
  | Action.payout g now, s => execute_payout g s now
  | Action.cancel g now, s => cancel_policy g s now
  | Action.updateOracle g a, s => update_oracle g a s

/-- The edges of the §4.4 state machine:
Active → Purchased → TriggeredPayout → PaidOut and Purchased → Cancelled. -/
def statusEdge (a b : PolicyStatus) : Prop :=
  (a = PolicyStatus.active ∧ b = PolicyStatus.purchased) ∨
  (a = PolicyStatus.purchased ∧ b = PolicyStatus.triggeredPayout) ∨
  (a = PolicyStatus.triggeredPayout ∧ b = PolicyStatus.paidOut) ∨
  (a = PolicyStatus.purchased ∧ b = PolicyStatus.cancelled)

/-- Terminal statuses per the spec (§4.4): PaidOut, Cancelled, Expired. -/
def terminalStatus (st : PolicyStatus) : Prop :=
  st = PolicyStatus.paidOut ∨ st = PolicyStatus.cancelled ∨ st = PolicyStatus.expired

/-- The configuration fields written only at initialization (plus
`oracle_address`, additionally written by `update_oracle`). -/
def configEq (p q : InsurancePolicy) : Prop :=
  p.authority = q.authority ∧
  p.policy_holder = q.policy_holder ∧
  p.oracle_address = q.oracle_address ∧
  p.trigger_threshold = q.trigger_threshold ∧
  p.coverage_amount = q.coverage_amount ∧
  p.premium_amount = q.premium_amount ∧
  p.expiry_timestamp = q.expiry_timestamp ∧
  p.created_timestamp = q.created_timestamp ∧
  p.bump = q.bump

/-! ## Characterization lemmas shared by the claim theorems -/

/-- `configEq` is reflexive. -/
theorem configEq_refl (p : InsurancePolicy) : configEq p p :=
  ⟨rfl, rfl, rfl, rfl, rfl, rfl, rfl, rfl, rfl⟩

/-- A successful `purchase_policy` pins down its preconditions and the
exact resulting state. -/
theorem purchase_policy_ok (g : Nat) (s : ChainState) (now : Int) (s' : ChainState)
    (h : purchase_policy g s now = TxResult.ok s') :
    g = s.policy.policy_holder ∧ s.policy.status = PolicyStatus.active ∧
    now < s.policy.expiry_timestamp ∧ s.policy.premium_amount ≤ s.holder_balance ∧
    s' = { s with
      holder_balance := s.holder_balance - s.policy.premium_amount
      pool_balance := s.pool_balance + s.policy.premium_amount
      policy := { s.policy with
        status := PolicyStatus.purchased
        purchased_timestamp := some now } } := by
  unfold purchase_policy token_transfer at h
  split_ifs at h with h1 h2 h3 h4
  cases h
  exact ⟨not_not.mp h1, not_not.mp h2, not_le.mp h3, not_lt.mp h4, rfl⟩

/-- A successful `check_trigger_conditions` pins down its preconditions
and the two possible resulting states (fired or unchanged). -/
theorem check_trigger_conditions_ok (g : Nat) (s : ChainState) (now : Int)
    (od : OracleData) (s' : ChainState)
    (h : check_trigger_conditions g s now od = TxResult.ok s') :
    g = s.policy.authority ∧ s.policy.status = PolicyStatus.purchased ∧
    now < s.policy.expiry_timestamp ∧
    (s' = s ∨ ∃ p : Price, od = OracleData.current p ∧ s' = fireState s now p.price) := by
  unfold check_trigger_conditions at h
  split_ifs at h with h1 h2 h3
  refine ⟨not_not.mp h1, not_not.mp h2, not_le.mp h3, ?_⟩
  cases od with
  | loadFail => exact absurd h (by simp)
  | noCurrentPrice => exact absurd h (by simp)
  | current p =>
      dsimp only at h
      cases htc : trigger_condition_type s.policy <;> rw [htc] at h <;> dsimp only at h
      · split_ifs at h with hcmp
        · exact Or.inr ⟨p, rfl, by injection h with h; exact h.symm⟩
        · exact Or.inl (by injection h with h; exact h.symm)
      · split_ifs at h with hcmp
        · exact Or.inr ⟨p, rfl, by injection h with h; exact h.symm⟩
        · exact Or.inl (by injection h with h; exact h.symm)
      · split_ifs at h with hz hcmp
        · exact Or.inr ⟨p, rfl, by injection h with h; exact h.symm⟩
        · exact Or.inl (by injection h with h; exact h.symm)

/-- A successful `execute_payout` pins down its preconditions and the
exact resulting state. Note the absence of any expiry condition. -/
theorem execute_payout_ok (g : Nat) (s : ChainState) (now : Int) (s' : ChainState)
    (h : execute_payout g s now = TxResult.ok s') :
    g = s.policy.authority ∧ s.policy.status = PolicyStatus.triggeredPayout ∧
    s.policy.coverage_amount ≤ s.pool_balance ∧
    s' = { s with
      pool_balance := s.pool_balance - s.policy.coverage_amount
      holder_balance := s.holder_balance + s.policy.coverage_amount
      policy := { s.policy with
        status := PolicyStatus.paidOut
        payout_timestamp := some now } } := by
  unfold execute_payout token_transfer at h
  split_ifs at h with h1 h2 h3
  cases h
  exact ⟨not_not.mp h1, not_not.mp h2, not_lt.mp h3, rfl⟩

/-- A successful `cancel_policy` pins down its preconditions and the
exact resulting state. -/
theorem cancel_policy_ok (g : Nat) (s : ChainState) (now : Int) (s' : ChainState)
    (h : cancel_policy g s now = TxResult.ok s') :
    g = s.policy.policy_holder ∧ s.policy.status = PolicyStatus.purchased ∧
    now < s.policy.expiry_timestamp ∧ s.policy.premium_amount ≤ s.pool_balance ∧
    s' = { s with
      pool_balance := s.pool_balance - s.policy.premium_amount
      holder_balance := s.holder_balance + s.policy.premium_amount
      policy := { s.policy with
        status := PolicyStatus.cancelled
        cancelled_timestamp := some now } } := by
  unfold cancel_policy token_transfer at h
  split_ifs at h with h1 h2 h3 h4
  cases h
  exact ⟨not_not.mp h1, not_not.mp h2, not_le.mp h3, not_lt.mp h4, rfl⟩

/-- A successful `update_oracle` pins down its precondition and the exact
resulting state: only `oracle_address` is replaced. -/
theorem update_oracle_ok (g addr : Nat) (s : ChainState) (s' : ChainState)
    (h : update_oracle g addr s = TxResult.ok s') :
    g = s.policy.authority ∧
    s' = { s with policy := { s.policy with oracle_address := addr } } := by
  unfold update_oracle at h
  split_ifs at h with h1
  exact ⟨not_not.mp h1, by cases h; rfl⟩

/-- With a positive threshold the condition kind is `PriceAbove`. -/
theorem trigger_condition_type_pos (p : InsurancePolicy)
    (h : 0 < p.trigger_threshold) :
    trigger_condition_type p = TriggerConditionType.priceAbove := by
  unfold trigger_condition_type
  rw [if_pos h]

/-- With a non-positive threshold the condition kind is `PriceBelow`. -/
theorem trigger_condition_type_nonpos (p : InsurancePolicy)
    (h : p.trigger_threshold ≤ 0) :
    trigger_condition_type p = TriggerConditionType.priceBelow := by
  unfold trigger_condition_type
  rw [if_neg (not_lt.mpr h)]

/-- On a Purchased, unexpired policy and a successfully read price,
`check_trigger_conditions` either fires (exactly when the sign-derived
predicate holds) or returns Ok with the state unchanged. -/
theorem check_trigger_current_eq (s : ChainState) (now : Int) (p : Price)
    (hst : s.policy.status = PolicyStatus.purchased)
    (ht : now < s.policy.expiry_timestamp) :
    check_trigger_conditions s.policy.authority s now (OracleData.current p) =
      if (0 < s.policy.trigger_threshold ∧ s.policy.trigger_threshold < p.price) ∨
          (s.policy.trigger_threshold ≤ 0 ∧ p.price < s.policy.trigger_threshold) then
        TxResult.ok (fireState s now p.price)
      else TxResult.ok s := by
  unfold check_trigger_conditions
  rw [if_neg (fun hh => hh rfl), if_neg (fun hh => hh hst), if_neg (fun hh => hh hst),
    if_neg (not_le.mpr ht)]
  dsimp only
  rcases lt_or_le 0 s.policy.trigger_threshold with hθ | hθ
  · rw [trigger_condition_type_pos s.policy hθ]
    dsimp only
    rcases lt_or_le s.policy.trigger_threshold p.price with hp | hp
    · rw [if_pos hp, if_pos (Or.inl ⟨hθ, hp⟩)]
    · rw [if_neg (not_lt.mpr hp),
        if_neg (fun hor => hor.elim (fun hc => absurd hc.2 (not_lt.mpr hp))
          (fun hc => absurd hθ (not_lt.mpr hc.1)))]
  · rw [trigger_condition_type_nonpos s.policy hθ]
    dsimp only
    rcases lt_or_le p.price s.policy.trigger_threshold with hp | hp
    · rw [if_pos hp, if_pos (Or.inr ⟨hθ, hp⟩)]
    · rw [if_neg (not_lt.mpr hp),
        if_neg (fun hor => hor.elim (fun hc => absurd hc.1 (not_lt.mpr hθ))
          (fun hc => absurd hc.2 (not_lt.mpr hp)))]

/-- `purchase_policy` never panics. -/
theorem purchase_policy_no_panic (g : Nat) (s : ChainState) (now : Int)
    (hres : purchase_policy g s now = TxResult.panic) : False := by
  unfold purchase_policy token_transfer at hres
  split_ifs at hres

/-- `execute_payout` never panics. -/
theorem execute_payout_no_panic (g : Nat) (s : ChainState) (now : Int)
    (hres : execute_payout g s now = TxResult.panic) : False := by
  unfold execute_payout token_transfer at hres
  split_ifs at hres

/-- `cancel_policy` never panics. -/
theorem cancel_policy_no_panic (g : Nat) (s : ChainState) (now : Int)
    (hres : cancel_policy g s now = TxResult.panic) : False := by
  unfold cancel_policy token_transfer at hres
  split_ifs at hres

/-- A panic in `check_trigger_conditions` (the `.unwrap()` or the
division) can only happen on a Purchased policy: the status constraint is
checked first. -/
theorem check_trigger_conditions_panic (g : Nat) (s : ChainState) (now : Int)
    (od : OracleData)
    (hres : check_trigger_conditions g s now od = TxResult.panic) :
    s.policy.status = PolicyStatus.purchased := by
  unfold check_trigger_conditions at hres
  split_ifs at hres with h1 h2 h3
  exact not_not.mp h2

/-- On a policy that is not Active, `purchase_policy` fails (with the
`has_one` failure or the status constraint), before any transfer. -/
theorem purchase_policy_err_of_not_active (g : Nat) (s : ChainState) (now : Int)
    (h : s.policy.status ≠ PolicyStatus.active) :
    ∃ e, purchase_policy g s now = TxResult.err e := by
  cases hres : purchase_policy g s now with
  | ok s' => exact absurd (purchase_policy_ok g s now s' hres).2.1 h
  | err e => exact ⟨e, rfl⟩
  | panic => exact absurd hres (fun hc => purchase_policy_no_panic g s now hc)

/-- On a policy that is not Purchased, `check_trigger_conditions` fails
before any oracle read. -/
theorem check_trigger_err_of_not_purchased (g : Nat) (s : ChainState) (now : Int)
    (od : OracleData) (h : s.policy.status ≠ PolicyStatus.purchased) :
    ∃ e, check_trigger_conditions g s now od = TxResult.err e := by
  cases hres : check_trigger_conditions g s now od with
  | ok s' => exact absurd (check_trigger_conditions_ok g s now od s' hres).2.1 h
  | err e => exact ⟨e, rfl⟩
  | panic => exact absurd (check_trigger_conditions_panic g s now od hres) h

/-- On a policy that is not TriggeredPayout, `execute_payout` fails,
before any transfer. -/
theorem execute_payout_err_of_not_triggered (g : Nat) (s : ChainState) (now : Int)
    (h : s.policy.status ≠ PolicyStatus.triggeredPayout) :
    ∃ e, execute_payout g s now = TxResult.err e := by
  cases hres : execute_payout g s now with
  | ok s' => exact absurd (execute_payout_ok g s now s' hres).2.1 h
  | err e => exact ⟨e, rfl⟩
  | panic => exact absurd hres (fun hc => execute_payout_no_panic g s now hc)

/-- On a policy that is not Purchased, `cancel_policy` fails, before any
transfer. -/
theorem cancel_policy_err_of_not_purchased (g : Nat) (s : ChainState) (now : Int)
    (h : s.policy.status ≠ PolicyStatus.purchased) :
    ∃ e, cancel_policy g s now = TxResult.err e := by
  cases hres : cancel_policy g s now with
  | ok s' => exact absurd (cancel_policy_ok g s now s' hres).2.1 h
  | err e => exact ⟨e, rfl⟩
  | panic => exact absurd hres (fun hc => cancel_policy_no_panic g s now hc)

/-- `update_oracle` never moves funds, whatever its outcome. -/
theorem update_oracle_balances (g addr : Nat) (s : ChainState) :
    (resultState s (update_oracle g addr s)).holder_balance = s.holder_balance ∧
    (resultState s (update_oracle g addr s)).pool_balance = s.pool_balance := by
  unfold update_oracle
  split_ifs
  · exact ⟨rfl, rfl⟩
  · exact ⟨rfl, rfl⟩

/-! ## Claim theorems -/

/-- C9: for every policy record, `trigger_condition_type` returns only
`PriceAbove` or `PriceBelow`; the `VolatilityAbove` kind is never
selected, so the `VolatilityAbove` branch of `check_trigger_conditions`
(with its division by the oracle price) is unreachable through any public
operation. -/
theorem c9_condition_kind_never_volatility (p : InsurancePolicy) :
    trigger_condition_type p = TriggerConditionType.priceAbove ∨
    trigger_condition_type p = TriggerConditionType.priceBelow := by
  unfold trigger_condition_type
  split_ifs
  · exact Or.inl rfl
  · exact Or.inr rfl

/-- C8: `update_oracle` invoked by the authority, in any status, replaces
only the `oracle_address` field of the record; the result is the input
state with every other record field and both balances unchanged, and no
fund movement occurs. -/
theorem c8_update_oracle_frame (s : ChainState) (addr : Nat) :
    update_oracle s.policy.authority addr s =
      TxResult.ok { s with policy := { s.policy with oracle_address := addr } } := by
  unfold update_oracle
  rw [if_neg (fun hh => hh rfl)]

/-- C4: on a Purchased, unexpired policy, `check_trigger_conditions`
fires the trigger iff `(trigger_threshold > 0 ∧ price > trigger_threshold)
∨ (trigger_threshold ≤ 0 ∧ price < trigger_threshold)`; firing sets
`status = TriggeredPayout` and `trigger_price = price` (`fireState`). -/
theorem c4_trigger_predicate (s : ChainState) (now : Int) (p : Price)
    (hst : s.policy.status = PolicyStatus.purchased)
    (ht : now < s.policy.expiry_timestamp) :
    (check_trigger_conditions s.policy.authority s now (OracleData.current p) =
        TxResult.ok (fireState s now p.price) ↔
      (0 < s.policy.trigger_threshold ∧ s.policy.trigger_threshold < p.price) ∨
        (s.policy.trigger_threshold ≤ 0 ∧ p.price < s.policy.trigger_threshold)) ∧
    (fireState s now p.price).policy.status = PolicyStatus.triggeredPayout ∧
    (fireState s now p.price).policy.trigger_price = some p.price := by
  refine ⟨?_, rfl, rfl⟩
  rw [check_trigger_current_eq s now p hst ht]
  constructor
  · intro he
    by_contra hc
    rw [if_neg hc] at he
    injection he with he
    have hstat := congrArg (fun t : ChainState => t.policy.status) he
    simp only [fireState] at hstat
    rw [hst] at hstat
    exact PolicyStatus.noConfusion hstat
  · intro hc
    rw [if_pos hc]

/-- Sample Purchased policy for the C4 witness, threshold 100. -/
def c4state : ChainState :=
  { policy :=
      { authority := 1, policy_holder := 2, oracle_address := 7
        trigger_threshold := 100, coverage_amount := 1000, premium_amount := 50
        expiry_timestamp := 10, created_timestamp := 0
        purchased_timestamp := some 2, triggered_timestamp := none
        payout_timestamp := none, cancelled_timestamp := none
        trigger_price := none, status := PolicyStatus.purchased, bump := 255 }
    holder_balance := 60, pool_balance := 50 }

/-- Sample Purchased policy for the C4 witness, threshold -50. -/
def c4stateNeg : ChainState :=
  { c4state with policy := { c4state.policy with trigger_threshold := -50 } }

/-- C4 witness: threshold 100 with price 150 fires (status
`TriggeredPayout`, `trigger_price = 150`), and threshold -50 with price
-80 fires. -/
theorem c4_trigger_predicate_witness :
    check_trigger_conditions c4state.policy.authority c4state 3
        (OracleData.current { price := 150, conf := 3 }) =
      TxResult.ok (fireState c4state 3 150) ∧
    (fireState c4state 3 150).policy.status = PolicyStatus.triggeredPayout ∧
    (fireState c4state 3 150).policy.trigger_price = some 150 ∧
    check_trigger_conditions c4stateNeg.policy.authority c4stateNeg 3
        (OracleData.current { price := -80, conf := 5 }) =
      TxResult.ok (fireState c4stateNeg 3 (-80)) := by
  refine ⟨?_, by decide, by decide, ?_⟩
  · exact ((c4_trigger_predicate c4state 3 { price := 150, conf := 3 }
      (by decide) (by decide)).1).mpr (Or.inl (by decide))
  · exact ((c4_trigger_predicate c4stateNeg 3 { price := -80, conf := 5 }
      (by decide) (by decide)).1).mpr (Or.inr (by decide))

/-- C7: on a Purchased, unexpired policy, when the freshly read price
does not satisfy the sign-derived trigger predicate,
`check_trigger_conditions` returns Ok and leaves the record entirely
unchanged: the status stays Purchased and `triggered_timestamp` and
`trigger_price` keep their (unset) values. -/
theorem c7_no_trigger_no_change (s : ChainState) (now : Int) (p : Price)
    (hst : s.policy.status = PolicyStatus.purchased)
    (ht : now < s.policy.expiry_timestamp)
    (hmiss : ¬ ((0 < s.policy.trigger_threshold ∧ s.policy.trigger_threshold < p.price) ∨
        (s.policy.trigger_threshold ≤ 0 ∧ p.price < s.policy.trigger_threshold))) :
    check_trigger_conditions s.policy.authority s now (OracleData.current p) =
      TxResult.ok s ∧
    (resultState s
      (check_trigger_conditions s.policy.authority s now (OracleData.current p))) = s ∧
    (resultState s
      (check_trigger_conditions s.policy.authority s now
        (OracleData.current p))).policy.status = PolicyStatus.purchased ∧
    (s.policy.triggered_timestamp = none →
      (resultState s
        (check_trigger_conditions s.policy.authority s now
          (OracleData.current p))).policy.triggered_timestamp = none) ∧
    (s.policy.trigger_price = none →
      (resultState s
        (check_trigger_conditions s.policy.authority s now
          (OracleData.current p))).policy.trigger_price = none) := by
  have h := check_trigger_current_eq s now p hst ht
  rw [if_neg hmiss] at h
  rw [h]
  exact ⟨rfl, rfl, hst, fun hu => hu, fun hu => hu⟩

/-- Sample Purchased policy for the C7 witness: threshold 100, price 80
does not satisfy the predicate. -/
def c7state : ChainState :=
  { policy :=
      { authority := 4, policy_holder := 5, oracle_address := 9
        trigger_threshold := 100, coverage_amount := 700, premium_amount := 20
        expiry_timestamp := 100, created_timestamp := 1
        purchased_timestamp := some 8, triggered_timestamp := none
        payout_timestamp := none, cancelled_timestamp := none
        trigger_price := none, status := PolicyStatus.purchased, bump := 254 }
    holder_balance := 30, pool_balance := 20 }

/-- C7 witness: with threshold 100 and price 80 the record is unchanged,
status stays Purchased, and the trigger fields stay unset. -/
theorem c7_no_trigger_no_change_witness :
    check_trigger_conditions c7state.policy.authority c7state 9
        (OracleData.current { price := 80, conf := 2 }) = TxResult.ok c7state ∧
    (resultState c7state
      (check_trigger_conditions c7state.policy.authority c7state 9
        (OracleData.current { price := 80, conf := 2 }))).policy.status =
      PolicyStatus.purchased ∧
    (resultState c7state
      (check_trigger_conditions c7state.policy.authority c7state 9
        (OracleData.current { price := 80, conf := 2 }))).policy.triggered_timestamp =
      none ∧
    (resultState c7state
      (check_trigger_conditions c7state.policy.authority c7state 9
        (OracleData.current { price := 80, conf := 2 }))).policy.trigger_price =
      none := by
  obtain ⟨h1, -, h3, h4, h5⟩ :=
    c7_no_trigger_no_change c7state 9 { price := 80, conf := 2 }
      (by decide) (by decide) (by decide)
  exact ⟨h1, h3, h4 rfl, h5 rfl⟩

/-- A TriggeredPayout (non-terminal) policy whose expiry time has already
passed, with enough escrow for the payout: the C1 counterexample state. -/
def c1state : ChainState :=
  { policy :=
      { authority := 1, policy_holder := 2, oracle_address := 7
        trigger_threshold := 100, coverage_amount := 1000, premium_amount := 50
        expiry_timestamp := 10, created_timestamp := 0
        purchased_timestamp := some 2, triggered_timestamp := some 4
        payout_timestamp := none, cancelled_timestamp := none
        trigger_price := some 150, status := PolicyStatus.triggeredPayout, bump := 255 }
    holder_balance := 0, pool_balance := 1000 }

/-- C1 counterexample: at `now = 10 ≥ expiry_timestamp = 10`, on a
non-terminal (TriggeredPayout) policy, `execute_payout` does not fail with
`PolicyExpired` — it succeeds and moves the full coverage amount out of
the escrow, because `execute_payout` performs no expiry check. -/
theorem c1_expiry_counterexample :
    c1state.policy.status = PolicyStatus.triggeredPayout ∧
    c1state.policy.expiry_timestamp ≤ 10 ∧
    execute_payout c1state.policy.authority c1state 10 =
      TxResult.ok { c1state with
        pool_balance := 0
        holder_balance := 1000
        policy := { c1state.policy with
          status := PolicyStatus.paidOut
          payout_timestamp := some 10 } } := by
  exact ⟨rfl, by decide, by decide⟩

/-- C1 amended: with `now ≥ expiry_time`, the three operations that check
expiry — `purchase_policy` (from Active), `check_trigger_conditions` and
`cancel_policy` (from Purchased) — fail with `PolicyExpired` and leave the
state unchanged; `execute_payout` and `update_oracle` perform no expiry
check: `execute_payout` succeeds from TriggeredPayout whenever the escrow
covers the payout, and `update_oracle` always succeeds for the
authority. -/
theorem c1_expiry_guard_amended (s : ChainState) (now : Int)
    (hexp : s.policy.expiry_timestamp ≤ now) :
    (s.policy.status = PolicyStatus.active →
      purchase_policy s.policy.policy_holder s now =
        TxResult.err (ProgramError.insurance InsuranceError.policyExpired) ∧
      resultState s (purchase_policy s.policy.policy_holder s now) = s) ∧
    (∀ od, s.policy.status = PolicyStatus.purchased →
      check_trigger_conditions s.policy.authority s now od =
        TxResult.err (ProgramError.insurance InsuranceError.policyExpired) ∧
      resultState s (check_trigger_conditions s.policy.authority s now od) = s) ∧
    (s.policy.status = PolicyStatus.purchased →
      cancel_policy s.policy.policy_holder s now =
        TxResult.err (ProgramError.insurance InsuranceError.policyExpired) ∧
      resultState s (cancel_policy s.policy.policy_holder s now) = s) ∧
    (s.policy.status = PolicyStatus.triggeredPayout →
      s.policy.coverage_amount ≤ s.pool_balance →
      execute_payout s.policy.authority s now =
        TxResult.ok { s with
          pool_balance := s.pool_balance - s.policy.coverage_amount
          holder_balance := s.holder_balance + s.policy.coverage_amount
          policy := { s.policy with
            status := PolicyStatus.paidOut
            payout_timestamp := some now } }) ∧
    (∀ addr, update_oracle s.policy.authority addr s =
      TxResult.ok { s with policy := { s.policy with oracle_address := addr } }) := by
  refine ⟨?_, ?_, ?_, ?_, ?_⟩
  · intro hst
    have he : purchase_policy s.policy.policy_holder s now =
        TxResult.err (ProgramError.insurance InsuranceError.policyExpired) := by
      unfold purchase_policy
      rw [if_neg (fun hh => hh rfl), if_neg (fun hh => hh hst),
        if_neg (fun hh => hh hst), if_pos hexp]
    exact ⟨he, by rw [he]; rfl⟩
  · intro od hst
    have he : check_trigger_conditions s.policy.authority s now od =
        TxResult.err (ProgramError.insurance InsuranceError.policyExpired) := by
      unfold check_trigger_conditions
      rw [if_neg (fun hh => hh rfl), if_neg (fun hh => hh hst),
        if_neg (fun hh => hh hst), if_pos hexp]
    exact ⟨he, by rw [he]; rfl⟩
  · intro hst
    have he : cancel_policy s.policy.policy_holder s now =
        TxResult.err (ProgramError.insurance InsuranceError.policyExpired) := by
      unfold cancel_policy
      rw [if_neg (fun hh => hh rfl), if_neg (fun hh => hh hst),
        if_neg (fun hh => hh hst), if_pos hexp]
    exact ⟨he, by rw [he]; rfl⟩
  · intro hst hcov
    unfold execute_payout token_transfer
    rw [if_neg (fun hh => hh rfl), if_neg (fun hh => hh hst),
      if_neg (fun hh => hh hst), if_neg (not_lt.mpr hcov)]
  · intro addr
    unfold update_oracle
    rw [if_neg (fun hh => hh rfl)]

/-- A Purchased policy already past its expiry: the C1 witness state. -/
def c1wstate : ChainState :=
  { policy :=
      { authority := 3, policy_holder := 4, oracle_address := 8
        trigger_threshold := 70, coverage_amount := 500, premium_amount := 25
        expiry_timestamp := 10, created_timestamp := 0
        purchased_timestamp := some 2, triggered_timestamp := none
        payout_timestamp := none, cancelled_timestamp := none
        trigger_price := none, status := PolicyStatus.purchased, bump := 253 }
    holder_balance := 100, pool_balance := 25 }

/-- C1 witness: at `now = 11 > expiry_timestamp = 10` on a Purchased
policy, `check_trigger_conditions` and `cancel_policy` fail with
`PolicyExpired`, and `update_oracle` still succeeds. -/
theorem c1_expiry_guard_amended_witness :
    c1wstate.policy.expiry_timestamp ≤ 11 ∧
    check_trigger_conditions c1wstate.policy.authority c1wstate 11 OracleData.loadFail =
      TxResult.err (ProgramError.insurance InsuranceError.policyExpired) ∧
    cancel_policy c1wstate.policy.policy_holder c1wstate 11 =
      TxResult.err (ProgramError.insurance InsuranceError.policyExpired) ∧
    update_oracle c1wstate.policy.authority 42 c1wstate =
      TxResult.ok { c1wstate with
        policy := { c1wstate.policy with oracle_address := 42 } } := by
  refine ⟨by decide, ?_, ?_, ?_⟩
  · exact ((c1_expiry_guard_amended c1wstate 11 (by decide)).2.1 OracleData.loadFail rfl).1
  · exact ((c1_expiry_guard_amended c1wstate 11 (by decide)).2.2.1 rfl).1
  · exact (c1_expiry_guard_amended c1wstate 11 (by decide)).2.2.2.2 42

/-- C2: every successful operation either leaves `status` unchanged or
moves it along one edge of Active → Purchased → TriggeredPayout → PaidOut
/ Purchased → Cancelled; no operation ever moves it backwards or skips an
edge. -/
theorem c2_status_monotone (a : Action) (s s' : ChainState)
    (h : applyAction a s = TxResult.ok s') :
    s'.policy.status = s.policy.status ∨
      statusEdge s.policy.status s'.policy.status := by
  cases a with
  | purchase g now =>
      obtain ⟨-, hst, -, -, hs'⟩ := purchase_policy_ok g s now s' h
      exact Or.inr (Or.inl ⟨hst, by rw [hs']⟩)
  | checkTrigger g now od =>
      obtain ⟨-, hst, -, hcase⟩ := check_trigger_conditions_ok g s now od s' h
      rcases hcase with rfl | ⟨p, -, hs'⟩
      · exact Or.inl rfl
      · exact Or.inr (Or.inr (Or.inl ⟨hst, by rw [hs']; rfl⟩))
  | payout g now =>
      obtain ⟨-, hst, -, hs'⟩ := execute_payout_ok g s now s' h
      exact Or.inr (Or.inr (Or.inr (Or.inl ⟨hst, by rw [hs']⟩)))
  | cancel g now =>
      obtain ⟨-, hst, -, -, hs'⟩ := cancel_policy_ok g s now s' h
      exact Or.inr (Or.inr (Or.inr (Or.inr ⟨hst, by rw [hs']⟩)))
  | updateOracle g addr =>
      obtain ⟨-, hs'⟩ := update_oracle_ok g addr s s' h
      exact Or.inl (by rw [hs'])

/-- An Active policy used by the C2 witness. -/
def c2state : ChainState :=
  { policy :=
      { authority := 1, policy_holder := 2, oracle_address := 7
        trigger_threshold := 100, coverage_amount := 1000, premium_amount := 50
        expiry_timestamp := 10, created_timestamp := 0
        purchased_timestamp := none, triggered_timestamp := none
        payout_timestamp := none, cancelled_timestamp := none
        trigger_price := none, status := PolicyStatus.active, bump := 255 }
    holder_balance := 60, pool_balance := 5 }

/-- The state after the C2 witness purchase. -/
def c2after : ChainState :=
  { c2state with
    holder_balance := 10
    pool_balance := 55
    policy := { c2state.policy with
      status := PolicyStatus.purchased
      purchased_timestamp := some 3 } }

/-- C2 witness: a concrete successful purchase follows the
Active → Purchased edge. -/
theorem c2_status_monotone_witness :
    applyAction (Action.purchase 2 3) c2state = TxResult.ok c2after ∧
    (c2after.policy.status = c2state.policy.status ∨
      statusEdge c2state.policy.status c2after.policy.status) :=
  ⟨by decide, c2_status_monotone (Action.purchase 2 3) c2state c2after (by decide)⟩

/-- C3: on a policy in a terminal status (PaidOut, Cancelled or Expired),
no operation moves funds: every operation leaves both balances unchanged,
and the three fund-moving operations (`purchase_policy`,
`execute_payout`, `cancel_policy`) fail their status precondition before
any transfer. -/
theorem c3_terminal_frozen (s : ChainState) (h : terminalStatus s.policy.status) :
    (∀ a : Action,
      (resultState s (applyAction a s)).holder_balance = s.holder_balance ∧
      (resultState s (applyAction a s)).pool_balance = s.pool_balance) ∧
    (∀ g now, ∃ e, purchase_policy g s now = TxResult.err e) ∧
    (∀ g now, ∃ e, execute_payout g s now = TxResult.err e) ∧
    (∀ g now, ∃ e, cancel_policy g s now = TxResult.err e) := by
  have hna : s.policy.status ≠ PolicyStatus.active := by
    rcases h with h | h | h <;> rw [h] <;> decide
  have hnp : s.policy.status ≠ PolicyStatus.purchased := by
    rcases h with h | h | h <;> rw [h] <;> decide
  have hnt : s.policy.status ≠ PolicyStatus.triggeredPayout := by
    rcases h with h | h | h <;> rw [h] <;> decide
  refine ⟨?_, fun g now => purchase_policy_err_of_not_active g s now hna,
    fun g now => execute_payout_err_of_not_triggered g s now hnt,
    fun g now => cancel_policy_err_of_not_purchased g s now hnp⟩
  intro a
  cases a with
  | purchase g now =>
      obtain ⟨e, he⟩ := purchase_policy_err_of_not_active g s now hna
      simp only [applyAction]
      rw [he]
      exact ⟨rfl, rfl⟩
  | checkTrigger g now od =>
      obtain ⟨e, he⟩ := check_trigger_err_of_not_purchased g s now od hnp
      simp only [applyAction]
      rw [he]
      exact ⟨rfl, rfl⟩
  | payout g now =>
      obtain ⟨e, he⟩ := execute_payout_err_of_not_triggered g s now hnt
      simp only [applyAction]
      rw [he]
      exact ⟨rfl, rfl⟩
  | cancel g now =>
      obtain ⟨e, he⟩ := cancel_policy_err_of_not_purchased g s now hnp
      simp only [applyAction]
      rw [he]
      exact ⟨rfl, rfl⟩
  | updateOracle g addr =>
      exact update_oracle_balances g addr s

/-- A PaidOut (terminal) policy used by the C3 witness. -/
def c3state : ChainState :=
  { policy :=
      { authority := 1, policy_holder := 2, oracle_address := 7
        trigger_threshold := 100, coverage_amount := 1000, premium_amount := 50
        expiry_timestamp := 100, created_timestamp := 0
        purchased_timestamp := some 2, triggered_timestamp := some 4
        payout_timestamp := some 6, cancelled_timestamp := none
        trigger_price := some 150, status := PolicyStatus.paidOut, bump := 255 }
    holder_balance := 1000, pool_balance := 0 }

/-- C3 witness: on a concrete PaidOut policy, a payout attempt leaves
both balances unchanged and a purchase attempt fails. -/
theorem c3_terminal_frozen_witness :
    c3state.policy.status = PolicyStatus.paidOut ∧
    (resultState c3state (applyAction (Action.payout 1 12) c3state)).holder_balance =
      c3state.holder_balance ∧
    (resultState c3state (applyAction (Action.payout 1 12) c3state)).pool_balance =
      c3state.pool_balance ∧
    (∃ e, purchase_policy 2 c3state 12 = TxResult.err e) := by
  refine ⟨rfl, ?_, ?_, ?_⟩
  · exact ((c3_terminal_frozen c3state (Or.inl rfl)).1 (Action.payout 1 12)).1
  · exact ((c3_terminal_frozen c3state (Or.inl rfl)).1 (Action.payout 1 12)).2
  · exact (c3_terminal_frozen c3state (Or.inl rfl)).2.1 2 12

/-- A Purchased, unexpired policy whose oracle feed misbehaves: the C5
failing input. -/
def c5state : ChainState :=
  { policy :=
      { authority := 1, policy_holder := 2, oracle_address := 7
        trigger_threshold := 100, coverage_amount := 1000, premium_amount := 50
        expiry_timestamp := 10, created_timestamp := 0
        purchased_timestamp := some 2, triggered_timestamp := none
        payout_timestamp := none, cancelled_timestamp := none
        trigger_price := none, status := PolicyStatus.purchased, bump := 255 }
    holder_balance := 10, pool_balance := 50 }

/-- C5, what the code actually does at the failing inputs: on a stale
feed (`get_current_price()` returning `None`) `check_trigger_conditions`
panics through `.unwrap()` instead of returning an error, and on a
malformed feed it propagates the pyth load error through `?`; in neither
case (nor any other) does it return `InsuranceError::InvalidOracleData`,
which is declared in the source but never constructed. -/
theorem c5_oracle_failure_modes :
    check_trigger_conditions c5state.policy.authority c5state 5
        OracleData.noCurrentPrice = TxResult.panic ∧
    check_trigger_conditions c5state.policy.authority c5state 5
        OracleData.loadFail = TxResult.err ProgramError.pythLoadFail := by
  exact ⟨by decide, by decide⟩

/-- C6: from an Active, unexpired policy with a sufficient holder
balance, `purchase_policy` followed immediately by `cancel_policy`
succeeds and restores both the holder balance and the escrow (pool)
balance to exactly their pre-purchase values; the amount moved each way
is `premium_amount`. -/
theorem c6_round_trip (s : ChainState) (n1 n2 : Int)
    (hst : s.policy.status = PolicyStatus.active)
    (h1 : n1 < s.policy.expiry_timestamp)
    (h2 : n2 < s.policy.expiry_timestamp)
    (hbal : s.policy.premium_amount ≤ s.holder_balance) :
    ∃ s1 s2,
      purchase_policy s.policy.policy_holder s n1 = TxResult.ok s1 ∧
      cancel_policy s1.policy.policy_holder s1 n2 = TxResult.ok s2 ∧
      s1.holder_balance + s.policy.premium_amount = s.holder_balance ∧
      s1.pool_balance = s.pool_balance + s.policy.premium_amount ∧
      s2.holder_balance = s.holder_balance ∧
      s2.pool_balance = s.pool_balance := by
  refine ⟨{ s with
      holder_balance := s.holder_balance - s.policy.premium_amount
      pool_balance := s.pool_balance + s.policy.premium_amount
      policy := { s.policy with
        status := PolicyStatus.purchased
        purchased_timestamp := some n1 } },
    { s with
      holder_balance := s.holder_balance - s.policy.premium_amount + s.policy.premium_amount
      pool_balance := s.pool_balance + s.policy.premium_amount - s.policy.premium_amount
      policy := { s.policy with
        status := PolicyStatus.cancelled
        purchased_timestamp := some n1
        cancelled_timestamp := some n2 } },
    ?_, ?_, ?_, rfl, ?_, ?_⟩
  · unfold purchase_policy token_transfer
    rw [if_neg (fun hh => hh rfl), if_neg (fun hh => hh hst), if_neg (fun hh => hh hst),
      if_neg (not_le.mpr h1), if_neg (not_lt.mpr hbal)]
  · unfold cancel_policy token_transfer
    rw [if_neg (fun hh => hh rfl), if_neg (fun hh => hh rfl), if_neg (fun hh => hh rfl),
      if_neg (not_le.mpr h2), if_neg (not_lt.mpr (Nat.le_add_left _ _))]
  · exact Nat.sub_add_cancel hbal
  · show s.holder_balance - s.policy.premium_amount + s.policy.premium_amount =
      s.holder_balance
    exact Nat.sub_add_cancel hbal
  · show s.pool_balance + s.policy.premium_amount - s.policy.premium_amount =
      s.pool_balance
    exact Nat.add_sub_cancel _ _

/-- An Active policy with a sufficient holder balance: the C6 witness
state. -/
def c6state : ChainState :=
  { policy :=
      { authority := 1, policy_holder := 2, oracle_address := 7
        trigger_threshold := 100, coverage_amount := 1000, premium_amount := 50
        expiry_timestamp := 10, created_timestamp := 0
        purchased_timestamp := none, triggered_timestamp := none
        payout_timestamp := none, cancelled_timestamp := none
        trigger_price := none, status := PolicyStatus.active, bump := 255 }
    holder_balance := 60, pool_balance := 5 }

/-- C6 witness: the round trip at a concrete Active policy. -/
theorem c6_round_trip_witness :
    ∃ s1 s2,
      purchase_policy c6state.policy.policy_holder c6state 3 = TxResult.ok s1 ∧
      cancel_policy s1.policy.policy_holder s1 4 = TxResult.ok s2 ∧
      s1.holder_balance + c6state.policy.premium_amount = c6state.holder_balance ∧
      s1.pool_balance = c6state.pool_balance + c6state.policy.premium_amount ∧
      s2.holder_balance = c6state.holder_balance ∧
      s2.pool_balance = c6state.pool_balance :=
  c6_round_trip c6state 3 4 rfl (by decide) (by decide) (by decide)

/-- C10: `purchase_policy`, `check_trigger_conditions`, `execute_payout`
and `cancel_policy`, whether they succeed or fail, never change the
configuration fields `authority`, `policy_holder`, `oracle_address`,
`trigger_threshold`, `coverage_amount`, `premium_amount`,
`expiry_timestamp`, `created_timestamp` and `bump` of the record. -/
theorem c10_config_fields_frame (s : ChainState) :
    (∀ g now, configEq s.policy (resultState s (purchase_policy g s now)).policy) ∧
    (∀ g now od,
      configEq s.policy (resultState s (check_trigger_conditions g s now od)).policy) ∧
    (∀ g now, configEq s.policy (resultState s (execute_payout g s now)).policy) ∧
    (∀ g now, configEq s.policy (resultState s (cancel_policy g s now)).policy) := by
  refine ⟨?_, ?_, ?_, ?_⟩
  · intro g now
    cases hres : purchase_policy g s now with
    | ok s' =>
        obtain ⟨-, -, -, -, hs'⟩ := purchase_policy_ok g s now s' hres
        rw [hs']
        exact ⟨rfl, rfl, rfl, rfl, rfl, rfl, rfl, rfl, rfl⟩
    | err e => exact configEq_refl s.policy
    | panic => exact configEq_refl s.policy
  · intro g now od
    cases hres : check_trigger_conditions g s now od with
    | ok s' =>
        obtain ⟨-, -, -, hcase⟩ := check_trigger_conditions_ok g s now od s' hres
        rcases hcase with rfl | ⟨p, -, hs'⟩
        · exact configEq_refl _
        · rw [hs']
          exact ⟨rfl, rfl, rfl, rfl, rfl, rfl, rfl, rfl, rfl⟩
    | err e => exact configEq_refl s.policy
    | panic => exact configEq_refl s.policy
  · intro g now
    cases hres : execute_payout g s now with
    | ok s' =>
        obtain ⟨-, -, -, hs'⟩ := execute_payout_ok g s now s' hres
        rw [hs']
        exact ⟨rfl, rfl, rfl, rfl, rfl, rfl, rfl, rfl, rfl⟩
    | err e => exact configEq_refl s.policy
    | panic => exact configEq_refl s.policy
  · intro g now
    cases hres : cancel_policy g s now with
    | ok s' =>
        obtain ⟨-, -, -, -, hs'⟩ := cancel_policy_ok g s now s' hres
        rw [hs']
        exact ⟨rfl, rfl, rfl, rfl, rfl, rfl, rfl, rfl, rfl⟩
    | err e => exact configEq_refl s.policy
    | panic => exact configEq_refl s.policy

end InsuranceContract
